import Mathlib

/-!
Shallow embedding of the Wokwi autograder scripts
(`tools/autograde.py`, `tools/autogradev2.py`, `tools/autogradev3.py`)
together with theorems checking the natural-language specification
against this embedding.

Conventions of the embedding:
* simulated times (Python floats) are modelled as rationals `ℚ`;
* text lines are Lean `String`s;
* the Python `random` module is modelled as an abstract deterministic
  generator: `seed` maps a seed to a generator state and `uniform`
  consumes state to produce a value, exactly as the global
  `random.seed` / `random.uniform` calls thread the module's state;
* fallible external calls (`read_pin`, `set_control`, network steps)
  are modelled by `Except`/`Bool` outcomes supplied in an environment
  record, and `try/except` blocks by matching on those outcomes.
-/

namespace Autograder

/-! ## Definitions -/

/-! ### Grader: ordered-subsequence check (`subseq` in autograde.py)

Python source:
```
def subseq(a, b):
    it = iter(b)
    return all(any(x == y for y in it) for x in a)
```
The iterator `it` is shared across the `any` calls, so each `any`
consumes elements of `b` up to and including the first match for the
current `x`; the next `any` resumes after it.  The equivalent
recursion: on a match both heads are consumed, otherwise only the head
of `b` is consumed; an empty `b` with a nonempty `a` fails.
-/

def subseq : List String → List String → Bool
  | [], _ => true
  | _ :: _, [] => false
  | x :: a, y :: b => if x = y then subseq a b else subseq (x :: a) b

/-! ### Schedule Builder (`make_probe_schedule` in autogradev2.py / autogradev3.py)

Python source (v2; v3 is the same with the seed unconditionally set):
```
if RANDOM_SEED is not None:
    random.seed(RANDOM_SEED)
t_min, t_max = RAND_WINDOW
rand_times = [random.uniform(t_min, t_max) for _ in range(NUM_RANDOM_TIMES)]
times = sorted(set(IMPORTANT_TIMES + rand_times))
```
The global `random` module is a deterministic state machine:
`random.seed s` replaces the state by a function of `s` alone and
`random.uniform` consumes and advances the state.  `RandomModule`
abstracts exactly that interface.
-/

structure RandomModule (σ : Type) where
  seed : Nat → σ
  uniform : ℚ → ℚ → σ → ℚ × σ

variable {σ : Type}

/-- `[random.uniform(t_min, t_max) for _ in range(n)]`, threading the
module state left to right. -/
def randTimes (R : RandomModule σ) (lo hi : ℚ) : Nat → σ → List ℚ × σ
  | 0, st => ([], st)
  | n + 1, st =>
    let p := R.uniform lo hi st
    let q := randTimes R lo hi n p.2
    (p.1 :: q.1, q.2)

/-- Insert `x` into a strictly sorted list, keeping it strictly
sorted; an exact duplicate is collapsed.  Building with this folds
realises Python's `sorted(set(xs))`. -/
def insortNoDup (x : ℚ) : List ℚ → List ℚ
  | [] => [x]
  | y :: ys =>
    if x < y then x :: y :: ys
    else if x = y then y :: ys
    else y :: insortNoDup x ys

/-- Python's `sorted(set(xs))`: the distinct values of `xs` in strictly
increasing order. -/
def sortedSet (xs : List ℚ) : List ℚ := xs.foldr insortNoDup []

/-- `make_probe_schedule`, parameterised as in autogradev2.py: the seed
is optional (`RANDOM_SEED = None` skips re-seeding and the call then
continues from the incoming global generator state `st0`).
autogradev3.py is the instance `seed = some 1337`,
`important = IMPORTANT_TIMES`, `nRandom = 6`, `window = RAND_WINDOW`.
Returns the schedule together with the final generator state (the
global `random` state after the call). -/
def make_probe_schedule (R : RandomModule σ) (seed : Option Nat)
    (important : List ℚ) (nRandom : Nat) (window : ℚ × ℚ) (st0 : σ) :
    List ℚ × σ :=
  let st1 := match seed with
    | some s => R.seed s
    | none => st0
  let r := randTimes R window.1 window.2 nRandom st1
  (sortedSet (important ++ r.1), r.2)

/-- `IMPORTANT_TIMES = [0.48, 0.70, 0.90, 1.10]` -/
def IMPORTANT_TIMES : List ℚ := [12/25, 7/10, 9/10, 11/10]

/-- `RAND_WINDOW = (0.20, 1.60)` -/
def RAND_WINDOW : ℚ × ℚ := (1/5, 8/5)

/-- `NUM_RANDOM_TIMES = 6` -/
def NUM_RANDOM_TIMES : Nat := 6

/-- `RANDOM_SEED = 1337` -/
def RANDOM_SEED : Nat := 1337

/-- A tiny concrete instance of the generator interface, used to
evaluate the schedule builder on closed inputs. -/
def demoRNG : RandomModule Nat where
  seed s := s
  uniform lo hi st := (lo + (hi - lo) / (((st % 7 : Nat) : ℚ) + 2), st + 1)

/-! ### Probe Sampler (`sample_probes` in autogradev2.py / autogradev3.py)

Python source (inner loop, identical in v2 and v3):
```
for t in times:
    await client.wait_until_simulation_time(t)
    row = [f"{t:.6f}"]
    for part, pin, _label in probes:
        try:
            val = await client.read_pin(part=part, pin=pin)
        except Exception as e:
            print(...); val = "ERR"
        row.append(val)
    writer.writerow(row)
```
A probe is the `(part, pin, label)` triple from `PROBES`.  The
simulator's `read_pin` at a given simulated time is abstracted as a
function `read : part → pin → time → Except String ℤ`; an
`Except.error` models the `except Exception` branch, which records the
`"ERR"` marker for that cell only.
-/

/-- `(part, pin, label)` -/
abbrev Probe := String × String × String

/-- One CSV cell after the time column: the pin value read, or the
`"ERR"` marker written by the `except` branch. -/
inductive Cell where
  | val (v : ℤ)
  | err
deriving DecidableEq, Repr

/-- The `try: val = read_pin(...) except: val = "ERR"` block for one
probe at simulated time `t`. -/
def readCell (read : String → String → ℚ → Except String ℤ) (t : ℚ)
    (p : Probe) : Cell :=
  match read p.1 p.2.1 t with
  | .ok v => .val v
  | .error _ => .err

/-- The inner `for part, pin, _label in probes` loop: one row of cells,
in probe-list order. -/
def sampleRow (read : String → String → ℚ → Except String ℤ)
    (probes : List Probe) (t : ℚ) : List Cell :=
  probes.map (readCell read t)

/-- `sample_probes`: the outer `for t in times` loop; each written data
row is modelled as `(t, cells)` (the time column keeps the value `t`
that the Python code formats as `f"{t:.6f}"`). -/
def sample_probes (read : String → String → ℚ → Except String ℤ)
    (probes : List Probe) (times : List ℚ) : List (ℚ × List Cell) :=
  times.map (fun t => (t, sampleRow read probes t))

/-- `PROBES` from autogradev3.py. -/
def PROBES : List Probe :=
  [("esp", "D26", "LED"), ("esp", "D4", "BTN"), ("esp", "D5", "D5")]

/-- A concrete `read_pin` model that raises exactly on pin `"D4"` and
returns 1 elsewhere; used to evaluate the sampler on closed inputs. -/
def readFailD4 : String → String → ℚ → Except String ℤ :=
  fun _ pin _ => if pin = "D4" then .error "read_pin failed" else .ok 1

/-! ### Stream Capture (`capture_serial` in autograde.py / autogradev2.py)

Python source (autograde.py; v2 writes to a file instead of a list but
processes lines identically):
```
async for raw in monitor_lines(client._transport):
    line = raw.decode(errors="replace").rstrip("\r\n")
    print(line)
    captured.append(line)
    if line.strip().upper() == "DONE":
        done_event.set()
        break
```
The async line source is modelled by the finite list of lines it
yields before ending; `capture_serial` returns the captured lines and
whether `done_event` was set.
-/

/-- Python's `s.rstrip("\r\n")`: drop trailing carriage returns and
newlines. -/
def rstripCRLF (s : String) : String :=
  ⟨(s.data.reverse.dropWhile (fun c => c = '\r' || c = '\n')).reverse⟩

/-- The whitespace set of Python's `str.strip()` (restricted to
ASCII, which is all the serial protocol produces). -/
def isSpaceChar (c : Char) : Bool :=
  c = ' ' || c = '\t' || c = '\n' || c = '\r' || c = '\x0b' || c = '\x0c'

/-- Python's `s.strip()`: drop leading and trailing whitespace. -/
def pyStrip (s : String) : String :=
  ⟨((s.data.dropWhile isSpaceChar).reverse.dropWhile isSpaceChar).reverse⟩

/-- Python's `str.upper()` on one ASCII character. -/
def pyUpperChar (c : Char) : Char :=
  if 'a' ≤ c && c ≤ 'z' then Char.ofNat (c.toNat - 32) else c

/-- Python's `s.upper()` (ASCII). -/
def pyUpper (s : String) : String := ⟨s.data.map pyUpperChar⟩

/-- The sentinel test applied to a processed line:
`line.strip().upper() == "DONE"` (`SERIAL_DONE_TOKEN = "DONE"`). -/
def isDoneLine (line : String) : Bool :=
  pyUpper (pyStrip line) == "DONE"

/-- `capture_serial` over the finite list of raw lines the source
yields: each line is rstripped and appended to the capture log; on the
sentinel the completion event is set and the loop breaks; if the
source ends first, the loop ends with the event unset. -/
def capture_serial : List String → List String × Bool
  | [] => ([], false)
  | raw :: rest =>
    let line := rstripCRLF raw
    if isDoneLine line then ([line], true)
    else
      let r := capture_serial rest
      (line :: r.1, r.2)

/-! ### Stimulus Driver (`drive_pushbutton` in v2/v3, `press_at` in autograde.py)

The driver's externally visible behaviour is the sequence of simulator
calls it issues; we record that call trace.  autogradev3.py:
```
for t_press, t_release in schedule:
    await client.wait_until_simulation_time(max(0.0, t_press - 0.002))
    try: await client.set_control(part="btn1", control="pressed", value=1)
    except ...
    await client.wait_until_simulation_time(t_press + 0.002)
    await client.wait_until_simulation_time(t_release + 0.002)
    try: await client.set_control(part="btn1", control="pressed", value=0)
    except ...
```
autograde.py's `press_at(t_press, t_release)` (no clamping):
```
await client.wait_until_simulation_time(t_press - 0.002)
try:
    await client.set_control(part="btn1", control="pressed", value=1)
    await client.wait_until_simulation_time(t_press + 0.002)
except ...
await client.wait_until_simulation_time(t_release + 0.002)
try:
    await client.set_control(part="btn1", control="pressed", value=0)
    await client.wait_until_simulation_time(t_release + 0.002)
except ...
```
Traces below are for runs in which `set_control` succeeds (a failing
`set_control` only removes the in-`try` actions after it, which are
additions of the guard band and so never introduce new wait targets
below those listed).
-/

/-- A simulator call issued by the driver. -/
inductive Action where
  | wait (t : ℚ)
  | setControl (part control : String) (value : ℤ)
deriving DecidableEq, Repr

/-- The 0.002 s pre/post-roll used around every press and release. -/
def guardBand : ℚ := 1/500

/-- Call trace of autogradev3.py's `drive_pushbutton` (autogradev2.py
line-for-line identical) over its `schedule` of
`(t_press, t_release)` pairs. -/
def drive_pushbutton (schedule : List (ℚ × ℚ)) : List Action :=
  schedule.flatMap (fun e =>
    [Action.wait (max 0 (e.1 - guardBand)),
     Action.setControl "btn1" "pressed" 1,
     Action.wait (e.1 + guardBand),
     Action.wait (e.2 + guardBand),
     Action.setControl "btn1" "pressed" 0])

/-- Call trace of autograde.py's `press_at t_press t_release`. -/
def press_at (tp tr : ℚ) : List Action :=
  [Action.wait (tp - guardBand),
   Action.setControl "btn1" "pressed" 1,
   Action.wait (tp + guardBand),
   Action.wait (tr + guardBand),
   Action.setControl "btn1" "pressed" 0,
   Action.wait (tr + guardBand)]

/-- autograde.py's `drive_button`: `press_at(1.1, 1.3); press_at(1.7, 2.1)`. -/
def drive_button : List Action :=
  press_at (11/10) (13/10) ++ press_at (17/10) (21/10)

/-- `BUTTON_PRESSES = [(0.50, 0.70), (0.90, 1.10)]` (v2/v3). -/
def BUTTON_PRESSES : List (ℚ × ℚ) := [(1/2, 7/10), (9/10, 11/10)]

/-! ### Run Coordinator (`run_and_grade` in autogradev3.py)

Each awaited external call either returns or raises; the environment
record fixes those outcomes, plus the filesystem facts the run reads
(token variable, firmware glob, golden CSV, and the probes CSV that
grading re-reads).  `run_and_grade` threads them in the source's
statement order.  There is no `try/finally` around the body in
autogradev3.py, so a raise at any step simply stops the thread of
execution; we count how many times `client.disconnect()` is reached.
-/

/-- How the process ends: `exitc n` is `SystemExit`/`sys.exit` with
status `n`; `exn` is an uncaught non-SystemExit exception escaping
the coroutine. -/
inductive Outcome where
  | exitc (n : Nat)
  | exn
deriving DecidableEq, Repr

/-- Outcomes of the awaited external calls and of the filesystem, for
one execution of autogradev3.py's `run_and_grade`.  A `Bool` field is
`true` when the corresponding call returns and `false` when it raises.
`gatherOk` is the joint outcome of `asyncio.gather(drive_pushbutton,
sample_probes)`: without `return_exceptions=True` the first exception
of either task propagates out of `gather`. -/
structure RunEnv where
  token : Option String
  firmware : Option String
  connectOk : Bool
  uploadOk : Bool
  startOk : Bool
  gatherOk : Bool
  disconnectOk : Bool
  golden : Option (List String)
  probesLog : List String

/-- `read_lines(path)`: `[]` when the file does not exist, its lines
otherwise. -/
def read_lines (file : Option (List String)) : List String :=
  file.getD []

/-- The grading tail of `run_and_grade` (autogradev3.py lines 174-189):
exit 0 when the golden CSV is missing-or-empty or matches, exit 1
otherwise. -/
def gradeProbes (golden : Option (List String)) (actual : List String) : Nat :=
  let eLines := read_lines golden
  if eLines.isEmpty then 0
  else if eLines = actual then 0
  else 1

/-- autogradev3.py `run_and_grade`, returning how many times
`client.disconnect()` was reached together with the process outcome.
`find_firmware` calls `sys.exit(2)` when no `build/*.bin` exists; a
missing `WOKWI_CLI_TOKEN` raises `SystemExit(message)`, which exits
with status 1. -/
def run_and_grade (env : RunEnv) : Nat × Outcome :=
  match env.token with
  | none => (0, .exitc 1)
  | some _ =>
    match env.firmware with
    | none => (0, .exitc 2)
    | some _ =>
      if !env.connectOk then (0, .exn)
      else if !env.uploadOk then (0, .exn)
      else if !env.startOk then (0, .exn)
      else if !env.gatherOk then (0, .exn)
      else if !env.disconnectOk then (1, .exn)
      else (1, .exitc (gradeProbes env.golden env.probesLog))

/-- All steps of `run_and_grade` up to and including grading return
normally. -/
def stepsOk (env : RunEnv) : Bool :=
  env.token.isSome && env.firmware.isSome && env.connectOk
    && env.uploadOk && env.startOk && env.gatherOk && env.disconnectOk

/-- A `RunEnv` in which every external call returns, parameterised by
the golden CSV and the captured probes log. -/
def envAllOk (golden : Option (List String)) (log : List String) : RunEnv :=
  { token := some "tok", firmware := some "build/firmware.bin",
    connectOk := true, uploadOk := true, startOk := true,
    gatherOk := true, disconnectOk := true,
    golden := golden, probesLog := log }

/-- A run in which driving/sampling raises after the connection was
acquired (`asyncio.gather` propagates the exception). -/
def envGatherRaises : RunEnv :=
  { envAllOk none [] with gatherOk := false }

/-! ### autograde.py `main` (serial-only variant)

Same modelling: outcomes of the awaited calls in an environment
record.  The VCD download loop and the VCD parse block both swallow
every exception (`try/except Exception`), so they never change control
flow.  After `disconnect`, `main` computes
`ok = subseq(EXPECTED, captured)` and returns: `ok` is never read, no
`sys.exit` is reached, so `asyncio.run(main())` finishing makes the
process exit 0. -/

/-- Call outcomes and inputs for one execution of autograde.py `main`.
`serialLines` is the finite list of raw lines the serial source yields
(the capture task consumes them via `capture_serial`); `expected` is
`tests/expected_serial.txt`. -/
structure AgEnv where
  token : Option String
  firmware : Option String
  connectOk : Bool
  uploadOk : Bool
  startOk : Bool
  disconnectOk : Bool
  serialLines : List String
  expected : List String

/-- autograde.py `main`: the process outcome.  The grading verdict
`ok` is computed (from the captured serial via `subseq`) but unused —
every branch that would exit nonzero on `not ok` is commented out in
the source — so a run in which no awaited call raises ends with exit
status 0 whatever was captured. -/
def autograde_main (env : AgEnv) : Outcome :=
  match env.token with
  | none => .exitc 1
  | some _ =>
    match env.firmware with
    | none => .exitc 2
    | some _ =>
      if !env.connectOk then .exn
      else if !env.uploadOk then .exn
      else if !env.startOk then .exn
      else if !env.disconnectOk then .exn
      else
        let captured := (capture_serial env.serialLines).1
        let _ok := subseq env.expected captured
        .exitc 0

/-- All steps of autograde.py `main` return normally. -/
def agStepsOk (env : AgEnv) : Bool :=
  env.token.isSome && env.firmware.isSome && env.connectOk
    && env.uploadOk && env.startOk && env.disconnectOk

/-- An `AgEnv` with every call returning, a capture that fails the
(unused) subsequence check, and the lab's expected first line. -/
def agEnvW : AgEnv :=
  { token := some "tok", firmware := some "build/firmware.bin",
    connectOk := true, uploadOk := true, startOk := true,
    disconnectOk := true,
    serialLines := ["garbage", "DONE"],
    expected := ["EVENT: Button Press"] }

/-! ## Helper lemmas -/

/-- The greedy check `subseq` decides `List.Sublist` (the
mathematical "ordered subsequence, matched at strictly increasing
positions" relation).  Forward direction. -/
theorem subseq_sound : ∀ (b a : List String), subseq a b = true → a.Sublist b := by
  intro b
  induction b with
  | nil =>
    intro a h
    cases a with
    | nil => exact List.Sublist.refl []
    | cons x a => simp [subseq] at h
  | cons y b ih =>
    intro a h
    cases a with
    | nil => exact List.nil_sublist _
    | cons x a =>
      by_cases hxy : x = y
      · subst hxy
        simp [subseq] at h
        exact List.Sublist.cons₂ x (ih a h)
      · simp [subseq, hxy] at h
        exact List.Sublist.cons y (ih (x :: a) h)

/-- The greedy check `subseq` decides `List.Sublist`: completeness. -/
theorem subseq_complete : ∀ (b a : List String), a.Sublist b → subseq a b = true := by
  intro b
  induction b with
  | nil =>
    intro a h
    rw [List.sublist_nil] at h
    subst h
    rfl
  | cons y b ih =>
    intro a h
    cases a with
    | nil => rfl
    | cons x a =>
      by_cases hxy : x = y
      · subst hxy
        simp only [subseq, if_pos rfl]
        exact ih a (List.cons_sublist_cons.mp h)
      · simp only [subseq, if_neg hxy]
        cases h with
        | cons _ h => exact ih (x :: a) h
        | cons₂ _ h => exact absurd rfl hxy

theorem mem_insortNoDup (x z : ℚ) :
    ∀ l : List ℚ, z ∈ insortNoDup x l ↔ z = x ∨ z ∈ l := by
  intro l
  induction l with
  | nil => simp [insortNoDup]
  | cons y ys ih =>
    by_cases h1 : x < y
    · simp [insortNoDup, h1]
    · by_cases h2 : x = y
      · subst h2
        rw [insortNoDup, if_neg h1, if_pos rfl, List.mem_cons]
        tauto
      · simp only [insortNoDup, if_neg h1, if_neg h2, List.mem_cons, ih]
        tauto

theorem sorted_insortNoDup (x : ℚ) :
    ∀ l : List ℚ, l.Sorted (· < ·) → (insortNoDup x l).Sorted (· < ·) := by
  intro l
  induction l with
  | nil =>
    intro _
    simp [insortNoDup]
  | cons y ys ih =>
    intro hs
    rw [List.sorted_cons] at hs
    by_cases h1 : x < y
    · simp only [insortNoDup, if_pos h1]
      rw [List.sorted_cons]
      constructor
      · intro b hb
        rcases List.mem_cons.mp hb with hb | hb
        · exact hb ▸ h1
        · exact lt_trans h1 (hs.1 b hb)
      · rw [List.sorted_cons]; exact hs
    · by_cases h2 : x = y
      · simp only [insortNoDup, if_neg h1, if_pos h2]
        rw [List.sorted_cons]; exact hs
      · simp only [insortNoDup, if_neg h1, if_neg h2]
        rw [List.sorted_cons]
        constructor
        · intro b hb
          rcases (mem_insortNoDup x b ys).mp hb with hb | hb
          · subst hb
            rcases lt_trichotomy b y with h | h | h
            · exact absurd h h1
            · exact absurd h h2
            · exact h
          · exact hs.1 b hb
        · exact ih hs.2

theorem sorted_sortedSet (xs : List ℚ) : (sortedSet xs).Sorted (· < ·) := by
  induction xs with
  | nil => simp [sortedSet]
  | cons x xs ih => exact sorted_insortNoDup x _ ih

theorem mem_sortedSet (z : ℚ) (xs : List ℚ) : z ∈ sortedSet xs ↔ z ∈ xs := by
  induction xs with
  | nil => simp [sortedSet]
  | cons x xs ih =>
    show z ∈ insortNoDup x (sortedSet xs) ↔ _
    rw [mem_insortNoDup, ih, List.mem_cons]

/-- The completion event is set exactly when some yielded line passes
the sentinel test. -/
theorem capture_serial_flag (lines : List String) :
    (capture_serial lines).2 = lines.any (fun raw => isDoneLine (rstripCRLF raw)) := by
  induction lines with
  | nil => rfl
  | cons raw rest ih =>
    by_cases h : isDoneLine (rstripCRLF raw)
    · simp [capture_serial, h]
    · simp [capture_serial, h, ih]

/-- Capture stops at the first sentinel line: everything before it is
logged, the sentinel is logged, nothing after it is consumed. -/
theorem capture_serial_found :
    ∀ (pre : List String) (raw : String) (post : List String),
      pre.all (fun l => !(isDoneLine (rstripCRLF l))) = true →
      isDoneLine (rstripCRLF raw) = true →
      capture_serial (pre ++ raw :: post)
        = (pre.map rstripCRLF ++ [rstripCRLF raw], true) := by
  intro pre
  induction pre with
  | nil =>
    intro raw post _ hdone
    simp [capture_serial, hdone]
  | cons l pre ih =>
    intro raw post hall hdone
    rw [List.all_cons, Bool.and_eq_true] at hall
    have hl : isDoneLine (rstripCRLF l) = false := by
      cases h : isDoneLine (rstripCRLF l)
      · rfl
      · rw [h] at hall; exact absurd hall.1 (by simp)
    simp only [List.cons_append, capture_serial, hl]
    rw [if_neg Bool.false_ne_true, List.append_eq, ih raw post hall.2 hdone]
    simp

/-- If the source ends without a sentinel line, every line is logged
and the completion event stays unset. -/
theorem capture_serial_noSentinel :
    ∀ lines : List String,
      lines.all (fun l => !(isDoneLine (rstripCRLF l))) = true →
      capture_serial lines = (lines.map rstripCRLF, false) := by
  intro lines
  induction lines with
  | nil => intro _; rfl
  | cons l rest ih =>
    intro hall
    rw [List.all_cons, Bool.and_eq_true] at hall
    have hl : isDoneLine (rstripCRLF l) = false := by
      cases h : isDoneLine (rstripCRLF l)
      · rfl
      · rw [h] at hall; exact absurd hall.1 (by simp)
    simp only [capture_serial, hl]
    rw [if_neg Bool.false_ne_true, ih hall.2]
    simp

/-! ## Claim theorems -/

/-- C2: the Grader's ordered-subsequence check succeeds on a pair of
line lists exactly when `expected` is an ordered subsequence of
`actual` (every expected line matched, in order, to distinct positions
strictly after the previous match — `List.Sublist`); in particular
`["A","B"]` against `["X","A","Y","B","Z"]` passes and `["A","B"]`
against `["B","A"]` fails. -/
theorem C2_subseq_decides_sublist :
    (∀ a b : List String, subseq a b = true ↔ a.Sublist b)
    ∧ subseq ["A", "B"] ["X", "A", "Y", "B", "Z"] = true
    ∧ subseq ["A", "B"] ["B", "A"] = false := by
  refine ⟨fun a b => ⟨subseq_sound b a, subseq_complete b a⟩, by decide, by decide⟩

/-- C3: schedule building is deterministic under a fixed seed — the
schedule produced by `make_probe_schedule` with `seed = some s` does
not depend on the incoming generator state, because the generator is
re-seeded at the start of each call; hence two successive calls (the
second continuing from the global state the first left behind) yield
identical schedules. -/
theorem C3_schedule_deterministic :
    ∀ (σ : Type) (R : RandomModule σ) (s : Nat) (important : List ℚ)
      (n : Nat) (w : ℚ × ℚ) (st st' : σ),
      (make_probe_schedule R (some s) important n w st).1
          = (make_probe_schedule R (some s) important n w st').1
      ∧ (make_probe_schedule R (some s) important n w
            (make_probe_schedule R (some s) important n w st).2).1
          = (make_probe_schedule R (some s) important n w st).1 := by
  intro σ R s important n w st st'
  exact ⟨rfl, rfl⟩

/-- C4: for every generated random subset, the schedule is strictly
increasing, has no duplicate timestamps, and contains every fixed
timestamp of the input. -/
theorem C4_schedule_sorted_complete :
    ∀ (σ : Type) (R : RandomModule σ) (seed : Option Nat)
      (important : List ℚ) (n : Nat) (w : ℚ × ℚ) (st : σ),
      (make_probe_schedule R seed important n w st).1.Sorted (· < ·)
      ∧ (make_probe_schedule R seed important n w st).1.Nodup
      ∧ ∀ t ∈ important, t ∈ (make_probe_schedule R seed important n w st).1 := by
  intro σ R seed important n w st
  have hsorted : (make_probe_schedule R seed important n w st).1.Sorted (· < ·) :=
    sorted_sortedSet _
  refine ⟨hsorted, hsorted.nodup, ?_⟩
  intro t ht
  show t ∈ sortedSet _
  rw [mem_sortedSet]
  exact List.mem_append_left _ ht

/-- C4 witness: concrete evaluation at the v3 configuration with a
concrete generator. -/
theorem C4_schedule_sorted_complete_witness :
    (12/25 : ℚ) ∈ IMPORTANT_TIMES
    ∧ (12/25 : ℚ) ∈ (make_probe_schedule demoRNG (some RANDOM_SEED)
        IMPORTANT_TIMES NUM_RANDOM_TIMES RAND_WINDOW 0).1
    ∧ (make_probe_schedule demoRNG (some RANDOM_SEED)
        IMPORTANT_TIMES NUM_RANDOM_TIMES RAND_WINDOW 0).1.Nodup := by
  have h := C4_schedule_sorted_complete Nat demoRNG (some RANDOM_SEED)
    IMPORTANT_TIMES NUM_RANDOM_TIMES RAND_WINDOW 0
  have hmem : (12/25 : ℚ) ∈ IMPORTANT_TIMES := by
    simp [IMPORTANT_TIMES]
  exact ⟨hmem, h.2.2 _ hmem, h.2.1⟩

/-- C5: for every probe list and schedule, the sampler emits exactly
one data row per schedule timestamp, in schedule order (the time
column of the rows is the schedule itself), and each row holds exactly
one cell per probe, read in probe-list order. -/
theorem C5_sampler_shape :
    ∀ (read : String → String → ℚ → Except String ℤ)
      (probes : List Probe) (times : List ℚ),
      (sample_probes read probes times).length = times.length
      ∧ (sample_probes read probes times).map Prod.fst = times
      ∧ ∀ r ∈ sample_probes read probes times,
          r.2.length = probes.length ∧ r.2 = probes.map (readCell read r.1) := by
  intro read probes times
  refine ⟨by simp [sample_probes], ?_, ?_⟩
  · simp only [sample_probes, List.map_map]
    exact List.map_id times
  intro r hr
  simp only [sample_probes, List.mem_map] at hr
  obtain ⟨t, _, rfl⟩ := hr
  exact ⟨by simp [sampleRow], rfl⟩

/-- C5 witness: concrete evaluation at the v3 probe list and fixed
times, with a reader that fails on pin D4. -/
theorem C5_sampler_shape_witness :
    (sample_probes readFailD4 PROBES IMPORTANT_TIMES).length = 4
    ∧ ((7/10 : ℚ), sampleRow readFailD4 PROBES (7/10))
        ∈ sample_probes readFailD4 PROBES IMPORTANT_TIMES
    ∧ ((7/10 : ℚ), sampleRow readFailD4 PROBES (7/10)).2.length = PROBES.length := by
  have hmem : ((7/10 : ℚ), sampleRow readFailD4 PROBES (7/10))
      ∈ sample_probes readFailD4 PROBES IMPORTANT_TIMES :=
    List.mem_map_of_mem (fun t => (t, sampleRow readFailD4 PROBES t))
      (by simp [IMPORTANT_TIMES])
  have h := C5_sampler_shape readFailD4 PROBES IMPORTANT_TIMES
  refine ⟨?_, hmem, (h.2.2 _ hmem).1⟩
  rw [h.1]
  rfl

/-- C6: a failed read replaces only the corresponding cell of the row
with the error marker; every other probe of the same row whose read
succeeds keeps its actual value, and the sampler still emits a row for
every schedule timestamp. -/
theorem C6_read_failure_is_local :
    (∀ (read : String → String → ℚ → Except String ℤ)
       (probes : List Probe) (t : ℚ) (i : Nat) (p : Probe) (msg : String),
       probes[i]? = some p → read p.1 p.2.1 t = Except.error msg →
       (sampleRow read probes t)[i]? = some Cell.err)
    ∧ (∀ (read : String → String → ℚ → Except String ℤ)
         (probes : List Probe) (t : ℚ) (j : Nat) (q : Probe) (v : ℤ),
         probes[j]? = some q → read q.1 q.2.1 t = Except.ok v →
         (sampleRow read probes t)[j]? = some (Cell.val v))
    ∧ (∀ (read : String → String → ℚ → Except String ℤ)
         (probes : List Probe) (times : List ℚ),
         (sample_probes read probes times).length = times.length) := by
  refine ⟨?_, ?_, fun read probes times => by simp [sample_probes]⟩
  · intro read probes t i p msg hp hread
    rw [sampleRow, List.getElem?_map, hp]
    simp [readCell, hread]
  · intro read probes t j q v hq hread
    rw [sampleRow, List.getElem?_map, hq]
    simp [readCell, hread]

/-- C6 witness: with the v3 probe list and a reader failing exactly on
pin D4 (probe index 1), the row at `t = 0.7` has the error marker in
cell 1 and the read value 1 in cell 0. -/
theorem C6_read_failure_is_local_witness :
    (sampleRow readFailD4 PROBES (7/10))[1]? = some Cell.err
    ∧ (sampleRow readFailD4 PROBES (7/10))[0]? = some (Cell.val 1) := by
  constructor
  · exact C6_read_failure_is_local.1 readFailD4 PROBES (7/10) 1
      ("esp", "D4", "BTN") "read_pin failed" rfl rfl
  · exact C6_read_failure_is_local.2.1 readFailD4 PROBES (7/10) 0
      ("esp", "D26", "LED") 1 rfl rfl

/-- C7: the completion flag is set iff some line of the source, after
rstripping, trimming, and uppercasing, equals the sentinel `"DONE"`;
capture consumes lines only up to and including the first such line;
and a source that ends without a sentinel leaves the flag unset with
every line captured. -/
theorem C7_capture_sentinel :
    ∀ lines : List String,
      ((capture_serial lines).2
          = lines.any (fun raw => isDoneLine (rstripCRLF raw)))
      ∧ (∀ pre raw post, lines = pre ++ raw :: post →
           pre.all (fun l => !(isDoneLine (rstripCRLF l))) = true →
           isDoneLine (rstripCRLF raw) = true →
           capture_serial lines = (pre.map rstripCRLF ++ [rstripCRLF raw], true))
      ∧ (lines.all (fun l => !(isDoneLine (rstripCRLF l))) = true →
           capture_serial lines = (lines.map rstripCRLF, false)) := by
  intro lines
  refine ⟨capture_serial_flag lines, ?_, capture_serial_noSentinel lines⟩
  intro pre raw post hsplit hall hdone
  rw [hsplit]
  exact capture_serial_found pre raw post hall hdone

/-- C7 witness: a source yielding `["hello", "Done\r", "tail"]` sets
the flag on the second line and never consumes the third. -/
theorem C7_capture_sentinel_witness :
    capture_serial ["hello", "Done\r", "tail"] = (["hello", "Done"], true)
    ∧ isDoneLine (rstripCRLF "Done\r") = true
    ∧ (capture_serial ["hello", "Done\r", "tail"]).2 = true := by
  have h := (C7_capture_sentinel ["hello", "Done\r", "tail"]).2.1
    ["hello"] "Done\r" ["tail"] rfl (by decide) (by decide)
  refine ⟨?_, by decide, ?_⟩
  · rw [h]
    decide
  · rw [h]

/-- C8 counterexample: the claim fails for the serial-only variant.
`press_at` (autograde.py) does not clamp its pre-assert wait: for the
valid stimulus event `(0, 0.1)` (assert time 0 ≤ deassert time) the
issued trace contains a wait until `0 - guardBand < 0`. -/
theorem C8_counterexample :
    Action.wait (0 - guardBand) ∈ press_at 0 (1/10)
    ∧ (0 - guardBand : ℚ) < 0
    ∧ (0 : ℚ) ≤ 0 ∧ (0 : ℚ) < 1/10 := by
  refine ⟨?_, by norm_num [guardBand], le_refl 0, by norm_num⟩
  simp [press_at]

/-- C8 amended: in `drive_pushbutton` (autogradev2.py/autogradev3.py)
the pre-assert wait target is clamped to at least 0 and every wait
target is nonnegative whenever the event times are nonnegative; the
serial-only `press_at` does not clamp, but the two events
autograde.py actually drives, `(1.1, 1.3)` and `(1.7, 2.1)`, also
produce only nonnegative wait targets. -/
theorem C8_no_negative_wait_amended :
    (∀ schedule : List (ℚ × ℚ),
       (∀ e ∈ schedule, 0 ≤ e.1 ∧ 0 ≤ e.2) →
       ∀ t : ℚ, Action.wait t ∈ drive_pushbutton schedule → 0 ≤ t)
    ∧ (∀ t : ℚ, Action.wait t ∈ drive_button → 0 ≤ t) := by
  constructor
  · intro schedule h t ht
    simp only [drive_pushbutton, List.mem_flatMap] at ht
    obtain ⟨e, he, hmem⟩ := ht
    have he2 := h e he
    simp only [List.mem_cons, List.not_mem_nil, or_false] at hmem
    rcases hmem with h1 | h1 | h1 | h1 | h1
    · cases Action.wait.injEq t (max 0 (e.1 - guardBand)) ▸ h1 with
      | _ => exact (Action.wait.inj h1) ▸ le_max_left 0 _
    · exact absurd h1 (by simp)
    · rw [Action.wait.inj h1]
      have : (0 : ℚ) ≤ guardBand := by norm_num [guardBand]
      linarith [he2.1]
    · rw [Action.wait.inj h1]
      have : (0 : ℚ) ≤ guardBand := by norm_num [guardBand]
      linarith [he2.2]
    · exact absurd h1 (by simp)
  · intro t ht
    simp only [drive_button, press_at, List.mem_append, List.mem_cons,
      List.not_mem_nil, or_false] at ht
    rcases ht with (h1 | h1 | h1 | h1 | h1 | h1) | (h1 | h1 | h1 | h1 | h1 | h1) <;>
      first
        | exact Action.noConfusion h1
        | (rw [Action.wait.inj h1]; norm_num [guardBand])

/-- C8 witness: the amended statement evaluated at the v2/v3 drive
plan `BUTTON_PRESSES`. -/
theorem C8_no_negative_wait_amended_witness :
    Action.wait (max 0 ((1/2 : ℚ) - guardBand)) ∈ drive_pushbutton BUTTON_PRESSES
    ∧ (0 : ℚ) ≤ max 0 ((1/2 : ℚ) - guardBand) := by
  have hmem : Action.wait (max 0 ((1/2 : ℚ) - guardBand))
      ∈ drive_pushbutton BUTTON_PRESSES := by
    simp [drive_pushbutton, BUTTON_PRESSES]
  refine ⟨hmem, C8_no_negative_wait_amended.1 BUTTON_PRESSES ?_ _ hmem⟩
  intro e he
  simp only [BUTTON_PRESSES, List.mem_cons, List.not_mem_nil, or_false] at he
  rcases he with rfl | rfl <;> constructor <;> norm_num

/-- C1 counterexample: a run in which an existing golden CSV is empty
and the captured probes log differs from it exits with status 0, not
1, because `read_lines` returns `[]` for an empty file and the code
takes the "no golden to compare" branch on an empty line list. -/
theorem C1_counterexample :
    (envAllOk (some []) ["time_s,LED,BTN,D5"]).golden.isSome = true
    ∧ read_lines (envAllOk (some []) ["time_s,LED,BTN,D5"]).golden
        ≠ (envAllOk (some []) ["time_s,LED,BTN,D5"]).probesLog
    ∧ (run_and_grade (envAllOk (some []) ["time_s,LED,BTN,D5"])).2
        ≠ Outcome.exitc 1
    ∧ (run_and_grade (envAllOk (some []) ["time_s,LED,BTN,D5"])).2
        = Outcome.exitc 0 := by
  refine ⟨rfl, by decide, by decide, rfl⟩

/-- C1 amended: when every external call returns, the process exits 0
when the golden CSV is missing or empty, exits 0 when its lines equal
the captured probes log, and exits 1 when an existing golden CSV with
at least one line differs from the captured log; it exits 2 when the
firmware binary is missing from the build directory (checked before
the run starts, with only the token check preceding it). -/
theorem C1_exit_codes_amended :
    ∀ env : RunEnv,
      (env.token.isSome = true → env.firmware = none →
          (run_and_grade env).2 = Outcome.exitc 2)
      ∧ (stepsOk env = true → read_lines env.golden = [] →
          (run_and_grade env).2 = Outcome.exitc 0)
      ∧ (stepsOk env = true → read_lines env.golden = env.probesLog →
          (run_and_grade env).2 = Outcome.exitc 0)
      ∧ (stepsOk env = true → read_lines env.golden ≠ [] →
          read_lines env.golden ≠ env.probesLog →
          (run_and_grade env).2 = Outcome.exitc 1) := by
  intro env
  obtain ⟨tok, fw, c, u, s, g, d, gold, log⟩ := env
  refine ⟨?_, ?_, ?_, ?_⟩
  · intro htok hfw
    cases tok with
    | none => simp at htok
    | some tk =>
      dsimp only at hfw
      subst hfw
      rfl
  · intro hok hempty
    simp only [stepsOk, Bool.and_eq_true, Option.isSome_iff_exists] at hok
    obtain ⟨⟨⟨⟨⟨⟨⟨tk, htok⟩, fwb, hfw⟩, hc⟩, hu⟩, hs⟩, hg⟩, hdc⟩ := hok
    subst htok hfw hc hu hs hg hdc
    simp [run_and_grade, gradeProbes, hempty]
  · intro hok heq
    simp only [stepsOk, Bool.and_eq_true, Option.isSome_iff_exists] at hok
    obtain ⟨⟨⟨⟨⟨⟨⟨tk, htok⟩, fwb, hfw⟩, hc⟩, hu⟩, hs⟩, hg⟩, hdc⟩ := hok
    subst htok hfw hc hu hs hg hdc
    dsimp only at heq
    by_cases hemp : read_lines gold = []
    · simp [run_and_grade, gradeProbes, hemp]
    · simp [run_and_grade, gradeProbes, heq, List.isEmpty_iff, hemp]
  · intro hok hne hdiff
    simp only [stepsOk, Bool.and_eq_true, Option.isSome_iff_exists] at hok
    obtain ⟨⟨⟨⟨⟨⟨⟨tk, htok⟩, fwb, hfw⟩, hc⟩, hu⟩, hs⟩, hg⟩, hdc⟩ := hok
    subst htok hfw hc hu hs hg hdc
    dsimp only at hne hdiff
    simp [run_and_grade, gradeProbes, List.isEmpty_iff, hne, hdiff]

/-- C1 witness: the amended statement evaluated on concrete runs — a
mismatching nonempty golden exits 1, a matching one exits 0, a missing
golden exits 0, and a missing firmware exits 2. -/
theorem C1_exit_codes_amended_witness :
    (run_and_grade (envAllOk (some ["x"]) ["y"])).2 = Outcome.exitc 1
    ∧ (run_and_grade (envAllOk (some ["x"]) ["x"])).2 = Outcome.exitc 0
    ∧ (run_and_grade (envAllOk none ["y"])).2 = Outcome.exitc 0
    ∧ (run_and_grade { envAllOk none [] with firmware := none }).2
        = Outcome.exitc 2 := by
  refine ⟨?_, ?_, ?_, ?_⟩
  · exact (C1_exit_codes_amended (envAllOk (some ["x"]) ["y"])).2.2.2
      (by decide) (by decide) (by decide)
  · exact (C1_exit_codes_amended (envAllOk (some ["x"]) ["x"])).2.2.1
      (by decide) (by decide)
  · exact (C1_exit_codes_amended (envAllOk none ["y"])).2.1 (by decide) rfl
  · exact (C1_exit_codes_amended { envAllOk none [] with firmware := none }).1
      rfl rfl

/-- C9 counterexample: when driving or sampling raises after the
connection was acquired (the `asyncio.gather` call propagates the
exception and `run_and_grade` has no `try/finally`), `disconnect` is
reached zero times, not once. -/
theorem C9_counterexample :
    envGatherRaises.connectOk = true
    ∧ (run_and_grade envGatherRaises).2 = Outcome.exn
    ∧ (run_and_grade envGatherRaises).1 = 0 := by
  exact ⟨rfl, rfl, rfl⟩

/-- C9 amended: `disconnect` is reached exactly once on executions in
which every step up to and including `asyncio.gather` returns normally
(whether or not the `disconnect` call itself then raises); but if
driving/sampling raises after the connection was acquired, the
exception escapes `run_and_grade` and `disconnect` is never reached. -/
theorem C9_disconnect_amended :
    ∀ env : RunEnv,
      (env.token.isSome = true → env.firmware.isSome = true →
          env.connectOk = true → env.uploadOk = true → env.startOk = true →
          env.gatherOk = true → (run_and_grade env).1 = 1)
      ∧ (env.token.isSome = true → env.firmware.isSome = true →
          env.connectOk = true → env.uploadOk = true → env.startOk = true →
          env.gatherOk = false → (run_and_grade env).1 = 0) := by
  intro env
  obtain ⟨tok, fw, c, u, s, g, d, gold, log⟩ := env
  constructor
  · intro htok hfw hc hu hs hg
    simp only [Option.isSome_iff_exists] at htok hfw
    obtain ⟨tk, htok⟩ := htok
    obtain ⟨fwb, hfw⟩ := hfw
    subst htok hfw hc hu hs hg
    cases d <;> rfl
  · intro htok hfw hc hu hs hg
    simp only [Option.isSome_iff_exists] at htok hfw
    obtain ⟨tk, htok⟩ := htok
    obtain ⟨fwb, hfw⟩ := hfw
    subst htok hfw hc hu hs hg
    rfl

/-- C9 witness: the amended statement on concrete runs — all calls
returning gives one `disconnect`, a run whose `disconnect` call itself
raises still gives exactly one, and a raise in `gather` gives zero. -/
theorem C9_disconnect_amended_witness :
    (run_and_grade (envAllOk none [])).1 = 1
    ∧ (run_and_grade { envAllOk none [] with disconnectOk := false }).1 = 1
    ∧ (run_and_grade envGatherRaises).1 = 0 := by
  exact ⟨(C9_disconnect_amended (envAllOk none [])).1 rfl rfl rfl rfl rfl rfl,
    (C9_disconnect_amended { envAllOk none [] with disconnectOk := false }).1
      rfl rfl rfl rfl rfl rfl,
    (C9_disconnect_amended envGatherRaises).2 rfl rfl rfl rfl rfl rfl⟩

/-- C10: in the serial-only variant (autograde.py), every run in which
no awaited call raises ends with process exit status 0 regardless of
the captured serial content: the `subseq` verdict is bound to the
unused local `ok` and every exit-1 branch is commented out. -/
theorem C10_serial_variant_always_exits_zero :
    ∀ env : AgEnv, agStepsOk env = true →
      autograde_main env = Outcome.exitc 0 := by
  intro env hok
  obtain ⟨tok, fw, c, u, s, d, lines, expd⟩ := env
  simp only [agStepsOk, Bool.and_eq_true, Option.isSome_iff_exists] at hok
  obtain ⟨⟨⟨⟨⟨⟨tk, htok⟩, fwb, hfw⟩, hc⟩, hu⟩, hs⟩, hd⟩ := hok
  subst htok hfw hc hu hs hd
  rfl

/-- C10 witness: a concrete run whose captured serial fails the
ordered-subsequence check against the expected lines still exits 0. -/
theorem C10_serial_variant_always_exits_zero_witness :
    subseq agEnvW.expected (capture_serial agEnvW.serialLines).1 = false
    ∧ autograde_main agEnvW = Outcome.exitc 0 := by
  exact ⟨by decide, C10_serial_variant_always_exits_zero agEnvW (by decide)⟩

end Autograder
